import Mathlib

/-!
Verification of the message reconciliation engine of the Business-case-vm
repository (RabbitMQ consumer reconciling order/customer events into a
Salesforce-like external store).

The embedding below translates the TypeScript source into Lean:

* `src/rabbitmq/consumer.ts` — the `RabbitMQConsumer` class: `processMessage`
  (the reconciliation loop), `handleMessage` (event dispatch),
  `upsertCustomerAndGetId`, `upsertOrder`, `findProductByExternalProductId`,
  `setProductStockById`, `decrementStockForOrderItems`, `retryableError`,
  `permanentError`, `sendToDLQ`, `sfInstance`.
* the `upsertOrderLines` variant of the consumer (same repository, file name
  unknown): `upsertOrderLines` and its `handleMessage` (here
  `handleMessageWithLines`).
* `src/config/index.ts` — `config.rabbitmq.maxRetries`.
* `src/utils/idempotency.ts` is imported by the consumer but its source is not
  part of the snapshot; `isMessageProcessed` / `markMessageProcessed` are
  modelled from the spec (see their doc comments).

The external Salesforce store is modelled as an in-memory record store
(`Store`).  HTTP transport is modelled as succeeding; the two behaviours of
the external store that the order-upsert protocol branches on (whether the
create response echoes an id, and whether a re-query immediately after a
create sees the new record) are explicit environment flags (`SfEnv`).
Errors thrown by the code are values of `JsError`, carrying the dynamic
`isHerhaalbaar` (retryable) flag and `statusCode` exactly as the JS code
attaches them; a plain `new Error(...)` carries neither flag
(`isHerhaalbaar = none`).
-/

namespace BCVM

/-- An error value as thrown by the consumer code: a JS `Error` optionally
carrying the dynamic `isHerhaalbaar` (retryable) flag and `statusCode`
properties. A plain `new Error(msg)` has neither. -/
structure JsError where
  message : String
  isHerhaalbaar : Option Bool
  statusCode : Option Nat
deriving Repr, DecidableEq

/-- consumer.ts `retryableError(message, statusCode = 500)`. -/
def retryableError (message : String) (statusCode : Nat := 500) : JsError :=
  { message := message, isHerhaalbaar := some true, statusCode := some statusCode }

/-- consumer.ts `permanentError(message, statusCode = 400)`. -/
def permanentError (message : String) (statusCode : Nat := 400) : JsError :=
  { message := message, isHerhaalbaar := some false, statusCode := some statusCode }

/-- A plain `new Error(message)` with no classification attached. -/
def plainError (message : String) : JsError :=
  { message := message, isHerhaalbaar := none, statusCode := none }

/-- The catch-block classification shared by all Salesforce helpers in
consumer.ts (customer upsert, order upsert, product query, stock update):

  const status = e?.response?.status;
  if (status && status >= 400 && status < 500)
    throw permanentError(..., status);
  throw retryableError(..., status ?? 500);

`status` is the HTTP status of the failed call (`none` when the caught value
has no response, e.g. a network error or an error thrown by the code itself
inside the try block). -/
def classifySfFailure (context : String) (status : Option Nat) : JsError :=
  match status with
  | some st =>
      if 400 ≤ st ∧ st < 500 then
        permanentError ("Salesforce 4xx bij " ++ context) st
      else
        retryableError ("Salesforce error bij " ++ context) st
  | none => retryableError ("Salesforce error bij " ++ context) 500

/-! ### Queue message data model (src/types/message.ts)

Event types arrive as strings in the parsed JSON, so `event` is a `String`;
the four known values are the `EventType` enum members. Monetary amounts and
quantities are JS numbers used only for subtraction and comparison here, so
they are modelled as `Int`. -/

/-- An order item (src/types/message.ts `MessagePayload.order.items`). -/
structure OrderItem where
  productId : String
  quantity : Int
  price : Int
  totalPrice : Int
  productName : Option String
deriving Repr, DecidableEq

/-- Customer part of a message payload. -/
structure CustomerPayload where
  id : String
  name : String
  email : String
  phone : Option String
  address : Option String
  city : Option String
  postalCode : Option String
deriving Repr, DecidableEq

/-- Order part of a message payload. -/
structure OrderPayload where
  id : String
  customerId : String
  amount : Int
  currency : String
  items : List OrderItem
deriving Repr, DecidableEq

/-- Message payload: optional customer and order parts. -/
structure MessagePayload where
  customer : Option CustomerPayload
  order : Option OrderPayload
deriving Repr, DecidableEq

/-- A queue message (src/types/message.ts `RabbitMQMessage`). -/
structure RabbitMQMessage where
  messageId : String
  event : String
  payload : MessagePayload
  timestamp : String
  retryCount : Option Nat
deriving Repr, DecidableEq

/-! ### The external record store

In Salesforce the consumer reads and writes four sobject types:
CustomerCustom__c, OrderCustom__c, OrderLineCustom__c, ProductCustom__c.
Records are modelled with exactly the fields the consumer touches; the
store-assigned Id is a `Nat` drawn from `Store.nextId`. -/

/-- A CustomerCustom__c record. -/
structure CustomerRec where
  sfId : Nat
  externalId : String
  cname : String
  email : String
  phone : Option String
  address : Option String
  city : Option String
  postalCode : Option String
deriving Repr, DecidableEq

/-- An OrderCustom__c record; `oname` is the Name field, which holds the
`externalOrderId` (the business key of the query-then-write protocol). -/
structure OrderRec where
  sfId : Nat
  oname : String
  total : Int
  status : String
  customerSfId : Nat
deriving Repr, DecidableEq

/-- An OrderLineCustom__c record; `lname` is the Name field, which holds the
composite key `externalOrderId ++ ":" ++ productId`. -/
structure LineRec where
  sfId : Nat
  lname : String
  orderSfId : Nat
  externalProductId : String
  qty : Int
  price : Int
deriving Repr, DecidableEq

/-- A ProductCustom__c record. -/
structure ProductRec where
  sfId : Nat
  externalProductId : String
  stock : Int
  pname : Option String
deriving Repr, DecidableEq

/-- The two behaviours of the external store that the order-upsert protocol
branches on. `createEchoesId`: whether the create (POST) response includes
the new record id. `fallbackSeesNew`: whether a query issued immediately
after a create already sees the new record (eventual consistency). -/
structure SfEnv where
  createEchoesId : Bool
  fallbackSeesNew : Bool
deriving Repr, DecidableEq

/-- The external record store state. -/
structure Store where
  customers : List CustomerRec
  orders : List OrderRec
  orderLines : List LineRec
  products : List ProductRec
  nextId : Nat
  env : SfEnv
deriving Repr, DecidableEq

/-- SOQL query `SELECT Id FROM OrderCustom__c WHERE Name = key LIMIT 1`. -/
def findOrderByName (orders : List OrderRec) (key : String) : Option OrderRec :=
  orders.find? (fun r => r.oname = key)

/-- SOQL query `SELECT Id FROM CustomerCustom__c WHERE ExternalId__c = key LIMIT 1`. -/
def findCustomerByExternalId (customers : List CustomerRec) (key : String) : Option CustomerRec :=
  customers.find? (fun r => r.externalId = key)

/-- SOQL query `SELECT Id FROM OrderLineCustom__c WHERE Name = key LIMIT 1`. -/
def findLineByName (lines : List LineRec) (key : String) : Option LineRec :=
  lines.find? (fun r => r.lname = key)

/-- SOQL query on ProductCustom__c by ExternalProductId__c, LIMIT 1. -/
def findProductRec (products : List ProductRec) (key : String) : Option ProductRec :=
  products.find? (fun r => r.externalProductId = key)

/-! ### Configuration (src/config/index.ts) -/

/-- src/config/index.ts: `config.rabbitmq.maxRetries = 3` (a literal, not an
environment variable). -/
def configMaxRetries : Nat := 3

/-- Strips trailing `/` characters, as `instance.replace(/\/+$/, "")` does. -/
def stripTrailingSlashes (s : String) : String :=
  String.mk ((s.toList.reverse.dropWhile (fun c => c = '/')).reverse)

/-- consumer.ts `sfInstance()`: reads `process.env.SALESFORCE_INSTANCE_URL`
(`none` when unset; the empty string is also falsy in JS) and throws a plain
`new Error(...)` — carrying no `isHerhaalbaar` flag — when it is missing. -/
def sfInstance (envVar : Option String) : Except JsError String :=
  match envVar with
  | none => .error (plainError "Missing env var: SALESFORCE_INSTANCE_URL")
  | some v =>
      if v = "" then .error (plainError "Missing env var: SALESFORCE_INSTANCE_URL")
      else .ok (stripTrailingSlashes v)

/-! ### External Record Synchronizer (Salesforce helpers of consumer.ts)

Every operation takes and returns the `Store`; a thrown error is surfaced as
`some e` / `.error e` together with the store as mutated so far (remote
writes that happened before the throw persist). -/

/-- The input record of `upsertCustomerAndGetId`. -/
structure CustomerInput where
  externalId : String
  name : String
  email : String
  phone : Option String
  address : Option String
  city : Option String
  postalCode : Option String
deriving Repr, DecidableEq

/-- consumer.ts `upsertCustomerAndGetId`: PATCH-upsert of CustomerCustom__c
keyed by ExternalId__c (native upsert: update the record with that external
id, else create one), then re-query by ExternalId__c for the store-assigned
Id. The post-write query always finds the record in this model; in the
unreachable not-found branch the thrown retryable error is caught by the
function's own catch block (it has no `response` field) and re-wrapped as
`classifySfFailure _ none`, i.e. retryable 500. -/
def upsertCustomerAndGetId (i : CustomerInput) (s : Store) : Store × Except JsError Nat :=
  let s' :=
    match findCustomerByExternalId s.customers i.externalId with
    | some rec =>
        { s with customers := s.customers.map (fun c =>
            if c.sfId = rec.sfId then
              { c with cname := i.name, email := i.email, phone := i.phone,
                       address := i.address, city := i.city, postalCode := i.postalCode }
            else c) }
    | none =>
        { s with
          customers :=
            ⟨s.nextId, i.externalId, i.name, i.email, i.phone, i.address, i.city, i.postalCode⟩
              :: s.customers,
          nextId := s.nextId + 1 }
  match findCustomerByExternalId s'.customers i.externalId with
  | some rec => (s', .ok rec.sfId)
  | none => (s', .error (classifySfFailure "customer upsert" none))

/-- The input record of `upsertOrder`. -/
structure OrderInput where
  externalOrderId : String
  total : Int
  status : String
  customerSfId : Nat
deriving Repr, DecidableEq

/-- consumer.ts `upsertOrder`: query OrderCustom__c by Name =
externalOrderId; if found, PATCH Total__c/Status__c/CustomerC__c and return
(id, createdNew := false); if not found, POST a create. When the create
response echoes the new id, return (id, true); otherwise re-query by the
same Name as a fallback (the new record is visible only when the store has
replicated it, `SfEnv.fallbackSeesNew`) and return (id, true) when found.
When even the fallback query finds nothing, the thrown retryable error
("Order not found after create") is caught by the function's own catch
block and re-wrapped as `classifySfFailure _ none`, i.e. retryable 500. -/
def upsertOrder (i : OrderInput) (s : Store) : Store × Except JsError (Nat × Bool) :=
  match findOrderByName s.orders i.externalOrderId with
  | some rec =>
      let s' := { s with orders := s.orders.map (fun r =>
        if r.sfId = rec.sfId then
          { r with total := i.total, status := i.status, customerSfId := i.customerSfId }
        else r) }
      (s', .ok (rec.sfId, false))
  | none =>
      let newRec : OrderRec :=
        ⟨s.nextId, i.externalOrderId, i.total, i.status, i.customerSfId⟩
      let s' := { s with orders := newRec :: s.orders, nextId := s.nextId + 1 }
      if s.env.createEchoesId then
        (s', .ok (newRec.sfId, true))
      else
        match (if s.env.fallbackSeesNew then findOrderByName s'.orders i.externalOrderId else none) with
        | some rec2 => (s', .ok (rec2.sfId, true))
        | none => (s', .error (classifySfFailure "order create/check" none))

/-- consumer.ts `findProductByExternalProductId`: query ProductCustom__c by
ExternalProductId__c. When no record is found the code throws
`permanentError(..., 404)` inside its own try block; the surrounding catch
sees no `response` field on that error and re-wraps it as
`classifySfFailure _ none` — so a missing product surfaces as a retryable
500 error, not as the permanent 404 stated next to the throw. -/
def findProductByExternalProductId (externalProductId : String) (s : Store) :
    Except JsError ProductRec :=
  match findProductRec s.products externalProductId with
  | some rec => .ok rec
  | none => .error (classifySfFailure "product query" none)

/-- consumer.ts `setProductStockById`: PATCH Stock__c of the product record
with the given store id. -/
def setProductStockById (productSfId : Nat) (newStock : Int) (s : Store) : Store :=
  { s with products := s.products.map (fun p =>
      if p.sfId = productSfId then { p with stock := newStock } else p) }

/-- The body of the `for (const item of items)` loop of
`decrementStockForOrderItems`. The JS guard
`!externalProductId || !qty || qty <= 0` collapses to
`productId = "" ∨ quantity ≤ 0` over the integers. -/
def decrementStep (orderExternalId : String) (item : OrderItem) (s : Store) :
    Store × Option JsError :=
  if item.productId = "" ∨ item.quantity ≤ 0 then
    (s, some (permanentError ("Ongeldig order item (productId/quantity): " ++ item.productId) 400))
  else
    match findProductByExternalProductId item.productId s with
    | .error e => (s, some e)
    | .ok product =>
        let currentStock := product.stock
        let newStock := currentStock - item.quantity
        if newStock < 0 then
          (s, some (permanentError
            ("Niet genoeg stock voor " ++ item.productId ++ " (order " ++ orderExternalId ++ ")") 409))
        else
          (setProductStockById product.sfId newStock s, none)

/-- consumer.ts `decrementStockForOrderItems`: processes the items strictly
sequentially; the first failing item stops the loop, keeping the writes of
the items before it. -/
def decrementStockForOrderItems (items : List OrderItem) (orderExternalId : String)
    (s : Store) : Store × Option JsError :=
  match items with
  | [] => (s, none)
  | item :: rest =>
      match decrementStep orderExternalId item s with
      | (s', none) => decrementStockForOrderItems rest orderExternalId s'
      | (s', some e) => (s', some e)

/-- Builds the `upsertCustomerAndGetId` input from a message's customer
payload, as the object literals in `handleMessage` do. -/
def custInputOfPayload (c : CustomerPayload) : CustomerInput :=
  ⟨c.id, c.name, c.email, c.phone, c.address, c.city, c.postalCode⟩

/-- consumer.ts `handleMessage`: dispatch on the event string. For order
events: missing payload.order / payload.customer is a permanent error;
otherwise upsert the customer, upsert the order (status hardcoded "NEW"),
and decrement stock only when the order upsert reported `createdNew`.
For customer events: upsert the customer. Any other event string is a
permanent error. -/
def handleMessage (m : RabbitMQMessage) (s : Store) : Store × Option JsError :=
  if m.event = "CREATE_ORDER" ∨ m.event = "UPDATE_ORDER" then
    match m.payload.order with
    | none => (s, some (permanentError "payload.order ontbreekt"))
    | some o =>
      match m.payload.customer with
      | none => (s, some (permanentError "payload.customer ontbreekt (nodig voor upsert)"))
      | some c =>
        match upsertCustomerAndGetId (custInputOfPayload c) s with
        | (s₁, .error e) => (s₁, some e)
        | (s₁, .ok customerSfId) =>
          match upsertOrder ⟨o.id, o.amount, "NEW", customerSfId⟩ s₁ with
          | (s₂, .error e) => (s₂, some e)
          | (s₂, .ok (_orderSfId, createdNew)) =>
            if createdNew then decrementStockForOrderItems o.items o.id s₂
            else (s₂, none)
  else if m.event = "CREATE_CUSTOMER" ∨ m.event = "UPDATE_CUSTOMER" then
    match m.payload.customer with
    | none => (s, some (permanentError "payload.customer ontbreekt"))
    | some c =>
      match upsertCustomerAndGetId (custInputOfPayload c) s with
      | (s₁, .error e) => (s₁, some e)
      | (s₁, .ok _) => (s₁, none)
  else
    (s, some (permanentError ("Onbekend event type: " ++ m.event)))

/-! ### Order lines (the `upsertOrderLines` consumer variant) -/

/-- The composite idempotency key of an order line:
`lineKey = orderExternalId ++ ":" ++ externalProductId`. -/
def lineKey (orderExternalId externalProductId : String) : String :=
  orderExternalId ++ ":" ++ externalProductId

/-- The body of the `for (const item of items)` loop of `upsertOrderLines`:
validate the item (the validation throw sits before the try block, so it
surfaces as thrown: permanent 400), then query OrderLineCustom__c by
Name = lineKey; if found, PATCH the line's fields (Name untouched); else
POST a create with Name = lineKey. -/
def upsertLineStep (orderSfId : Nat) (orderExternalId : String) (item : OrderItem)
    (s : Store) : Store × Option JsError :=
  if item.productId = "" ∨ item.quantity ≤ 0 then
    (s, some (permanentError ("Ongeldig order item (productId/quantity): " ++ item.productId) 400))
  else
    match findLineByName s.orderLines (lineKey orderExternalId item.productId) with
    | some rec =>
        ({ s with orderLines := s.orderLines.map (fun l =>
            if l.sfId = rec.sfId then
              { l with orderSfId := orderSfId, externalProductId := item.productId,
                       qty := item.quantity, price := item.price }
            else l) }, none)
    | none =>
        ({ s with
           orderLines :=
             ⟨s.nextId, lineKey orderExternalId item.productId, orderSfId,
              item.productId, item.quantity, item.price⟩
               :: s.orderLines,
           nextId := s.nextId + 1 }, none)

/-- `upsertOrderLines` of the order-lines consumer variant: one line per
(orderExternalId, productId), keyed by `lineKey`, processed sequentially;
the first failing item stops the loop. -/
def upsertOrderLines (orderSfId : Nat) (orderExternalId : String)
    (items : List OrderItem) (s : Store) : Store × Option JsError :=
  match items with
  | [] => (s, none)
  | item :: rest =>
      match upsertLineStep orderSfId orderExternalId item s with
      | (s', none) => upsertOrderLines orderSfId orderExternalId rest s'
      | (s', some e) => (s', some e)

/-- `handleMessage` of the order-lines consumer variant: like `handleMessage`
but, for order events, upserts the order lines after the order upsert and
before the (createdNew-guarded) stock decrement. -/
def handleMessageWithLines (m : RabbitMQMessage) (s : Store) : Store × Option JsError :=
  if m.event = "CREATE_ORDER" ∨ m.event = "UPDATE_ORDER" then
    match m.payload.order with
    | none => (s, some (permanentError "payload.order ontbreekt"))
    | some o =>
      match m.payload.customer with
      | none => (s, some (permanentError "payload.customer ontbreekt (nodig voor upsert)"))
      | some c =>
        match upsertCustomerAndGetId (custInputOfPayload c) s with
        | (s₁, .error e) => (s₁, some e)
        | (s₁, .ok customerSfId) =>
          match upsertOrder ⟨o.id, o.amount, "NEW", customerSfId⟩ s₁ with
          | (s₂, .error e) => (s₂, some e)
          | (s₂, .ok (orderSfId, createdNew)) =>
            match upsertOrderLines orderSfId o.id o.items s₂ with
            | (s₃, some e) => (s₃, some e)
            | (s₃, none) =>
              if createdNew then decrementStockForOrderItems o.items o.id s₃
              else (s₃, none)
  else if m.event = "CREATE_CUSTOMER" ∨ m.event = "UPDATE_CUSTOMER" then
    match m.payload.customer with
    | none => (s, some (permanentError "payload.customer ontbreekt"))
    | some c =>
      match upsertCustomerAndGetId (custInputOfPayload c) s with
      | (s₁, .error e) => (s₁, some e)
      | (s₁, .ok _) => (s₁, none)
  else
    (s, some (permanentError ("Onbekend event type: " ++ m.event)))

/-! ### Idempotency Ledger (modelled from the spec) -/

/-- Terminal status of a processed message. -/
inductive PStatus where
  | success
  | failed
deriving Repr, DecidableEq

/-- An Idempotency Record (src/types/message.ts `ProcessedMessage`, spec
section 3): messageId, terminal status, processing timestamp, optional
error text. -/
structure ProcessedRecord where
  messageId : String
  status : PStatus
  processedAt : String
  error : Option String
deriving Repr, DecidableEq

/-- The Idempotency Ledger: the recorded terminal outcomes. -/
def Ledger : Type := List ProcessedRecord

/-- Modelled from the spec: `isProcessed(messageId) -> bool` of the
Idempotency Ledger (src/utils/idempotency.ts, not part of the snapshot) —
true when a terminal outcome (success or failed) is recorded for the id. -/
def isMessageProcessed (ledger : Ledger) (messageId : String) : Bool :=
  (List.any ledger (fun r => r.messageId = messageId))

/-- Modelled from the spec: `markProcessed(messageId, status, error?)` of the
Idempotency Ledger (src/utils/idempotency.ts, not part of the snapshot) —
append-only, records the first terminal outcome per messageId; a second call
for the same id is a no-op, never an overwrite. -/
def markMessageProcessed (ledger : Ledger) (messageId : String) (status : PStatus)
    (error : Option String) (now : String) : Ledger :=
  if isMessageProcessed ledger messageId then ledger
  else ⟨messageId, status, now, error⟩ :: ledger

/-! ### Dead Letter Router and the Reconciliation Loop (processMessage) -/

/-- A dead-lettered message: the original message's fields plus dlqReason and
dlqTimestamp, exactly as the spread `{...message, dlqReason, dlqTimestamp}`
builds it. -/
structure DlqMessage where
  messageId : String
  event : String
  payload : MessagePayload
  timestamp : String
  retryCount : Option Nat
  dlqReason : String
  dlqTimestamp : String
deriving Repr, DecidableEq

/-- consumer.ts `sendToDLQ`: append `dlqReason := error` and
`dlqTimestamp := new Date().toISOString()` (the ambient clock, passed in as
`now`) to the original message. -/
def sendToDLQ (message : RabbitMQMessage) (error : String) (now : String) : DlqMessage :=
  { messageId := message.messageId
    event := message.event
    payload := message.payload
    timestamp := message.timestamp
    retryCount := message.retryCount
    dlqReason := error
    dlqTimestamp := now }

/-- The broker-visible effects of one `processMessage` call, in order. -/
inductive Effect where
  | ack
  | nackNoRequeue
  | publishQueue (m : RabbitMQMessage)
  | publishDLQ (m : DlqMessage)
deriving Repr, DecidableEq

/-- A message handler: maps a message and the external store to the mutated
store and `none` on success / `some e` on a thrown error
(`handleMessage` instantiates it). -/
def HandlerFn : Type := RabbitMQMessage → Store → Store × Option JsError

/-- The DLQ reason string: `error?.message || "Unknown error"` (the empty
string is falsy in JS). -/
def dlqReasonOf (e : JsError) : String :=
  if e.message = "" then "Unknown error" else e.message

/-- consumer.ts `processMessage`, the Reconciliation Loop, for one delivery:

1. parse failure (`parsed = none`): nack without requeue;
2. messageId already in the Idempotency Ledger: ack immediately;
3. run the handler; on success mark success and ack; on error read
   `isHerhaalbaar` (defaulting to true when the error carries no flag) and
   `retryCount := (message.retryCount || 0) + 1`, then:
   retryable and retryCount < maxRetries → re-publish the message with the
   incremented retryCount to the origin queue and ack the original;
   not retryable → nack without requeue and mark failed;
   otherwise (retries exhausted) → publish to the DLQ, ack, mark failed.

Returns the ledger, the store, and the ordered broker effects. -/
def processMessage (maxRetries : Nat) (handler : HandlerFn)
    (parsed : Option RabbitMQMessage) (now : String) (ledger : Ledger) (s : Store) :
    Ledger × Store × List Effect :=
  match parsed with
  | none => (ledger, s, [.nackNoRequeue])
  | some message =>
    if isMessageProcessed ledger message.messageId then
      (ledger, s, [.ack])
    else
      match handler message s with
      | (s', none) =>
          (markMessageProcessed ledger message.messageId .success none now, s', [.ack])
      | (s', some e) =>
          let herhaalbaar := e.isHerhaalbaar.getD true
          let retryCount := message.retryCount.getD 0 + 1
          if herhaalbaar ∧ retryCount < maxRetries then
            (ledger, s',
             [.publishQueue { message with retryCount := some retryCount }, .ack])
          else if ¬ herhaalbaar then
            (markMessageProcessed ledger message.messageId .failed (some e.message) now,
             s', [.nackNoRequeue])
          else
            (markMessageProcessed ledger message.messageId .failed (some e.message) now,
             s', [.publishDLQ (sendToDLQ message (dlqReasonOf e) now), .ack])

/-! ## Helper lemmas (shared across claims) -/

/-- find? commutes with a map that does not change the predicate's verdict. -/
theorem find?_map_eq {α : Type} (g : α → α) (p : α → Bool)
    (hg : ∀ x, p (g x) = p x) (l : List α) :
    (l.map g).find? p = (l.find? p).map g := by
  induction l with
  | nil => rfl
  | cons a t ih =>
      by_cases h : p a
      · rw [List.map_cons, List.find?_cons_of_pos _ (by rw [hg]; exact h),
            List.find?_cons_of_pos _ h, Option.map_some']
      · rw [List.map_cons, List.find?_cons_of_neg _ (by rw [hg]; simpa using h),
            List.find?_cons_of_neg _ (by simpa using h), ih]

/-- The customer upsert always succeeds in this model (the post-write query
finds the record the PATCH upserted). -/
theorem upsertCustomerAndGetId_ok (i : CustomerInput) (s : Store) :
    ∃ cid, (upsertCustomerAndGetId i s).2 = Except.ok cid := by
  unfold upsertCustomerAndGetId
  cases h : findCustomerByExternalId s.customers i.externalId with
  | some rec =>
      have hm : findCustomerByExternalId
          (s.customers.map (fun c =>
            if c.sfId = rec.sfId then
              { c with cname := i.name, email := i.email, phone := i.phone,
                       address := i.address, city := i.city, postalCode := i.postalCode }
            else c)) i.externalId
          = (findCustomerByExternalId s.customers i.externalId).map (fun c =>
            if c.sfId = rec.sfId then
              { c with cname := i.name, email := i.email, phone := i.phone,
                       address := i.address, city := i.city, postalCode := i.postalCode }
            else c) := by
        unfold findCustomerByExternalId
        refine find?_map_eq _ _ (fun x => ?_) s.customers
        by_cases hx : x.sfId = rec.sfId <;> simp [hx]
      simp only [hm, h, Option.map_some']
      exact ⟨_, rfl⟩
  | none =>
      have : findCustomerByExternalId
          (⟨s.nextId, i.externalId, i.name, i.email, i.phone, i.address, i.city, i.postalCode⟩
            :: s.customers) i.externalId
          = some ⟨s.nextId, i.externalId, i.name, i.email, i.phone, i.address, i.city, i.postalCode⟩ := by
        unfold findCustomerByExternalId
        exact List.find?_cons_of_pos _ (by simp)
      simp only [this]
      exact ⟨_, rfl⟩

/-- The customer upsert touches only the customers list (and the id counter). -/
theorem upsertCustomerAndGetId_frame (i : CustomerInput) (s : Store) :
    (upsertCustomerAndGetId i s).1.orders = s.orders ∧
    (upsertCustomerAndGetId i s).1.orderLines = s.orderLines ∧
    (upsertCustomerAndGetId i s).1.products = s.products ∧
    (upsertCustomerAndGetId i s).1.env = s.env := by
  unfold upsertCustomerAndGetId
  cases h : findCustomerByExternalId s.customers i.externalId <;>
    (dsimp only []; split <;> simp)

/-- The order upsert touches only the orders list (and the id counter). -/
theorem upsertOrder_frame (i : OrderInput) (s : Store) :
    (upsertOrder i s).1.customers = s.customers ∧
    (upsertOrder i s).1.orderLines = s.orderLines ∧
    (upsertOrder i s).1.products = s.products ∧
    (upsertOrder i s).1.env = s.env := by
  unfold upsertOrder
  cases h : findOrderByName s.orders i.externalOrderId <;> dsimp only []
  · split <;> (try split) <;> simp
  · simp

/-- One stock-decrement step touches only the products list. -/
theorem decrementStep_frame (oid : String) (item : OrderItem) (s : Store) :
    (decrementStep oid item s).1.customers = s.customers ∧
    (decrementStep oid item s).1.orders = s.orders ∧
    (decrementStep oid item s).1.orderLines = s.orderLines ∧
    (decrementStep oid item s).1.nextId = s.nextId ∧
    (decrementStep oid item s).1.env = s.env := by
  unfold decrementStep setProductStockById
  split
  · simp
  · cases findProductByExternalProductId item.productId s <;> dsimp only []
    · simp
    · split <;> simp

/-- The stock decrement touches only the products list. -/
theorem decrementStock_frame (items : List OrderItem) (oid : String) (s : Store) :
    (decrementStockForOrderItems items oid s).1.customers = s.customers ∧
    (decrementStockForOrderItems items oid s).1.orders = s.orders ∧
    (decrementStockForOrderItems items oid s).1.orderLines = s.orderLines ∧
    (decrementStockForOrderItems items oid s).1.nextId = s.nextId ∧
    (decrementStockForOrderItems items oid s).1.env = s.env := by
  induction items generalizing s with
  | nil => simp [decrementStockForOrderItems]
  | cons item rest ih =>
      unfold decrementStockForOrderItems
      rcases hstep : decrementStep oid item s with ⟨s', e⟩
      have hf := decrementStep_frame oid item s
      rw [hstep] at hf
      obtain ⟨h1, h2, h3, h4, h5⟩ := hf
      cases e with
      | none =>
          dsimp only []
          have hrec := ih s'
          exact ⟨hrec.1.trans h1, hrec.2.1.trans h2, hrec.2.2.1.trans h3,
                 hrec.2.2.2.1.trans h4, hrec.2.2.2.2.trans h5⟩
      | some e => exact ⟨h1, h2, h3, h4, h5⟩

/-! ## C1 — error classification of Synchronizer failures

The claim states 401 and 429 are classified retryable. In consumer.ts the
catch blocks classify every status in 400..499 — 401 and 429 included — as
permanent, and there is no 401-triggered credential refresh in this
consumer. The claim fails; the nearby statement that holds replaces the two
retryable rows by permanent ones. -/

/-- C1, counterexample: the claim says a Synchronizer failure with HTTP
status 401 is retryable; the classifier of consumer.ts marks it permanent
(isHerhaalbaar = false). -/
theorem classify_401_permanent_cex :
    (classifySfFailure "customer upsert" (some 401)).isHerhaalbaar = some false := by
  rfl

/-- C1 (amended): the classification attached to every Synchronizer failure
is: any status in 400..499 (401 and 429 included) is permanent; any other
status (5xx) is retryable; a failure with no status is retryable with
statusCode recorded as 500. -/
theorem classifySfFailure_table (context : String) (st : Nat) :
    (400 ≤ st → st < 500 →
      classifySfFailure context (some st)
        = permanentError ("Salesforce 4xx bij " ++ context) st) ∧
    (500 ≤ st →
      classifySfFailure context (some st)
        = retryableError ("Salesforce error bij " ++ context) st) ∧
    classifySfFailure context none
      = retryableError ("Salesforce error bij " ++ context) 500 := by
  refine ⟨fun h1 h2 => ?_, fun h5 => ?_, rfl⟩
  · simp [classifySfFailure, h1, h2]
  · simp [classifySfFailure, Nat.not_lt_of_le h5]

/-- C1 witness: at status 429 the classifier yields the permanent branch. -/
theorem classifySfFailure_table_witness :
    classifySfFailure "order create/check" (some 429)
      = permanentError ("Salesforce 4xx bij " ++ "order create/check") 429 :=
  (classifySfFailure_table "order create/check" 429).1 (by norm_num) (by norm_num)

/-! ## C7 — the query-then-write protocol of the order upsert -/

/-- C7: `upsertOrder` follows the query-then-write protocol exactly:
(1) when the query by business key (externalOrderId as Name) finds a record,
it PATCHes Total/Status/Customer on it and returns (id, createdNew = false);
(2) when nothing is found it POSTs a create, and when the create response
carries the id it returns (new id, createdNew = true);
(3) when the create response omits the id it re-queries by the same key and,
when that query sees the new record, still returns (new id, createdNew = true);
(4) only when even the re-query finds nothing does it raise a retryable
failure. -/
theorem upsertOrder_protocol (i : OrderInput) (s : Store) :
    (∀ rec, findOrderByName s.orders i.externalOrderId = some rec →
      upsertOrder i s =
        ({ s with orders := s.orders.map (fun r =>
            if r.sfId = rec.sfId then
              { r with total := i.total, status := i.status, customerSfId := i.customerSfId }
            else r) },
         Except.ok (rec.sfId, false))) ∧
    (findOrderByName s.orders i.externalOrderId = none → s.env.createEchoesId = true →
      upsertOrder i s =
        ({ s with
            orders := ⟨s.nextId, i.externalOrderId, i.total, i.status, i.customerSfId⟩ :: s.orders,
            nextId := s.nextId + 1 },
         Except.ok (s.nextId, true))) ∧
    (findOrderByName s.orders i.externalOrderId = none → s.env.createEchoesId = false →
      s.env.fallbackSeesNew = true →
      (upsertOrder i s).2 = Except.ok (s.nextId, true)) ∧
    (findOrderByName s.orders i.externalOrderId = none → s.env.createEchoesId = false →
      s.env.fallbackSeesNew = false →
      (upsertOrder i s).2
        = Except.error (retryableError ("Salesforce error bij " ++ "order create/check") 500)) := by
  refine ⟨fun rec hfound => ?_, fun hnone hecho => ?_, fun hnone hecho hsees => ?_,
          fun hnone hecho hsees => ?_⟩
  · simp [upsertOrder, hfound]
  · simp [upsertOrder, hnone, hecho]
  · have hfind : findOrderByName
        (⟨s.nextId, i.externalOrderId, i.total, i.status, i.customerSfId⟩ :: s.orders)
        i.externalOrderId
        = some ⟨s.nextId, i.externalOrderId, i.total, i.status, i.customerSfId⟩ := by
      unfold findOrderByName
      exact List.find?_cons_of_pos _ (by simp)
    simp [upsertOrder, hnone, hecho, hsees, hfind]
  · simp [upsertOrder, hnone, hecho, hsees, retryableError, classifySfFailure]

/-- C7 witness: a store holding the order ORD-1 with id 7; the upsert patches
it and reports createdNew = false with id 7. -/
theorem upsertOrder_protocol_witness :
    upsertOrder ⟨"ORD-1", 12, "NEW", 3⟩
        ⟨[], [⟨7, "ORD-1", 5, "NEW", 3⟩], [], [], 8, ⟨true, true⟩⟩
      = (⟨[], [⟨7, "ORD-1", 12, "NEW", 3⟩], [], [], 8, ⟨true, true⟩⟩,
         Except.ok (7, false)) := by
  have h := (upsertOrder_protocol ⟨"ORD-1", 12, "NEW", 3⟩
      ⟨[], [⟨7, "ORD-1", 5, "NEW", 3⟩], [], [], 8, ⟨true, true⟩⟩).1
      ⟨7, "ORD-1", 5, "NEW", 3⟩ (by decide)
  simpa using h

/-! ## C2 — the stock decrement is guarded by createdNew -/

/-- C2: for an order event, the stock decrement runs if and only if the order
upsert reported createdNew = true: (first part) after the customer and order
upserts, `handleMessage` continues with `decrementStockForOrderItems`
exactly when createdNew = true and otherwise finishes without touching the
store further; (second part) in particular, when an order record with the
message's externalOrderId already exists — e.g. the same order redelivered
under a different messageId, which the ledger does not short-circuit — the
upsert reports createdNew = false, the decrement is skipped, and the
products (stock) are left exactly unchanged. -/
theorem handleMessage_decrement_guard (m : RabbitMQMessage) (s : Store)
    (o : OrderPayload) (c : CustomerPayload)
    (hev : m.event = "CREATE_ORDER" ∨ m.event = "UPDATE_ORDER")
    (hord : m.payload.order = some o)
    (hcust : m.payload.customer = some c) :
    (∀ s₁ cid s₂ osf createdNew,
      upsertCustomerAndGetId (custInputOfPayload c) s = (s₁, Except.ok cid) →
      upsertOrder ⟨o.id, o.amount, "NEW", cid⟩ s₁ = (s₂, Except.ok (osf, createdNew)) →
      handleMessage m s =
        (if createdNew then decrementStockForOrderItems o.items o.id s₂ else (s₂, none))) ∧
    (∀ rec, findOrderByName s.orders o.id = some rec →
      (handleMessage m s).1.products = s.products ∧ (handleMessage m s).2 = none) := by
  constructor
  · intro s₁ cid s₂ osf createdNew hA hB
    rcases hev with h | h <;>
      simp [handleMessage, h, hord, hcust, hA, hB]
  · intro rec hfound
    obtain ⟨cid, hok⟩ := upsertCustomerAndGetId_ok (custInputOfPayload c) s
    rcases hE : upsertCustomerAndGetId (custInputOfPayload c) s with ⟨s₁, r⟩
    rw [hE] at hok
    simp only [] at hok
    subst hok
    have hfr := upsertCustomerAndGetId_frame (custInputOfPayload c) s
    rw [hE] at hfr
    have horders : s₁.orders = s.orders := hfr.1
    have hprod : s₁.products = s.products := hfr.2.2.1
    have hfound₁ : findOrderByName s₁.orders o.id = some rec := by
      rw [horders]; exact hfound
    have hup := (upsertOrder_protocol ⟨o.id, o.amount, "NEW", cid⟩ s₁).1 rec hfound₁
    rcases hev with h | h <;>
      simp [handleMessage, h, hord, hcust, hE, hup, hprod]

/-- C2 witness: redelivery of order ORD-1 (any new messageId) against a store
already holding that order: stock stays at 7 and processing succeeds. -/
theorem handleMessage_decrement_guard_witness :
    (handleMessage
        ⟨"m2", "CREATE_ORDER",
         ⟨some ⟨"CUST-1", "Ann", "a@b.c", none, none, none, none⟩,
          some ⟨"ORD-1", "CUST-1", 12, "EUR", [⟨"P1", 3, 4, 12, none⟩]⟩⟩,
         "t1", none⟩
        ⟨[⟨0, "CUST-1", "Ann", "a@b.c", none, none, none, none⟩],
         [⟨1, "ORD-1", 12, "NEW", 0⟩], [],
         [⟨100, "P1", 7, some "Cola"⟩], 2, ⟨true, true⟩⟩).1.products
      = [⟨100, "P1", 7, some "Cola"⟩] ∧
    (handleMessage
        ⟨"m2", "CREATE_ORDER",
         ⟨some ⟨"CUST-1", "Ann", "a@b.c", none, none, none, none⟩,
          some ⟨"ORD-1", "CUST-1", 12, "EUR", [⟨"P1", 3, 4, 12, none⟩]⟩⟩,
         "t1", none⟩
        ⟨[⟨0, "CUST-1", "Ann", "a@b.c", none, none, none, none⟩],
         [⟨1, "ORD-1", 12, "NEW", 0⟩], [],
         [⟨100, "P1", 7, some "Cola"⟩], 2, ⟨true, true⟩⟩).2 = none :=
  (handleMessage_decrement_guard
      ⟨"m2", "CREATE_ORDER",
       ⟨some ⟨"CUST-1", "Ann", "a@b.c", none, none, none, none⟩,
        some ⟨"ORD-1", "CUST-1", 12, "EUR", [⟨"P1", 3, 4, 12, none⟩]⟩⟩,
       "t1", none⟩
      ⟨[⟨0, "CUST-1", "Ann", "a@b.c", none, none, none, none⟩],
       [⟨1, "ORD-1", 12, "NEW", 0⟩], [],
       [⟨100, "P1", 7, some "Cola"⟩], 2, ⟨true, true⟩⟩
      ⟨"ORD-1", "CUST-1", 12, "EUR", [⟨"P1", 3, 4, 12, none⟩]⟩
      ⟨"CUST-1", "Ann", "a@b.c", none, none, none, none⟩
      (Or.inl rfl) rfl rfl).2 ⟨1, "ORD-1", 12, "NEW", 0⟩ (by decide)

/-! ## C5 — stock never goes negative -/

/-- One decrement step preserves non-negativity of every stored stock: the
only write is guarded by `newStock < 0 → throw`. -/
theorem decrementStep_nonneg (oid : String) (item : OrderItem) (s : Store)
    (h : ∀ p ∈ s.products, 0 ≤ p.stock) :
    ∀ p ∈ (decrementStep oid item s).1.products, 0 ≤ p.stock := by
  unfold decrementStep
  split
  · exact h
  · cases hf : findProductByExternalProductId item.productId s with
    | error e => exact h
    | ok product =>
        dsimp only []
        split
        · exact h
        · rename_i hguard
          intro p hp
          unfold setProductStockById at hp
          simp only [List.mem_map] at hp
          obtain ⟨q, hq, hpq⟩ := hp
          subst hpq
          by_cases hid : q.sfId = product.sfId
          · simp only [hid, if_true]
            exact not_lt.mp hguard
          · simp only [hid, if_false]
            exact h q hq

/-- The stock decrement preserves non-negativity along the whole item list,
whether it succeeds or stops at a failing item. -/
theorem decrementStock_nonneg_aux (items : List OrderItem) (oid : String) :
    ∀ s : Store, (∀ p ∈ s.products, 0 ≤ p.stock) →
      ∀ p ∈ (decrementStockForOrderItems items oid s).1.products, 0 ≤ p.stock := by
  induction items with
  | nil => intro s h; simpa [decrementStockForOrderItems] using h
  | cons item rest ih =>
      intro s h
      unfold decrementStockForOrderItems
      rcases hstep : decrementStep oid item s with ⟨s', e⟩
      have hs' : ∀ p ∈ s'.products, 0 ≤ p.stock := by
        have hn := decrementStep_nonneg oid item s h
        rw [hstep] at hn
        exact hn
      cases e
      · exact ih s' hs'
      · exact hs'

/-- C5: (1) starting from a store in which no stock is negative,
`decrementStockForOrderItems` never drives any product's stored stock below
zero — the value written is current - quantity and is only written after the
`newStock < 0` guard passes; (2) an item whose requested quantity exceeds
the product's current stock makes the step fail with a permanent
(isHerhaalbaar = false) 409 error and write nothing; (3) items are processed
sequentially: after a successful step the loop continues on the updated
store, so items processed before a violating item keep their decrement. -/
theorem decrementStock_never_negative (oid : String) (s : Store) :
    (∀ items : List OrderItem, (∀ p ∈ s.products, 0 ≤ p.stock) →
      ∀ p ∈ (decrementStockForOrderItems items oid s).1.products, 0 ≤ p.stock) ∧
    (∀ item : OrderItem, item.productId ≠ "" → 0 < item.quantity →
      ∀ prod, findProductRec s.products item.productId = some prod →
        prod.stock < item.quantity →
        decrementStep oid item s =
          (s, some (permanentError
            ("Niet genoeg stock voor " ++ item.productId ++ " (order " ++ oid ++ ")") 409))) ∧
    (∀ (item : OrderItem) (rest : List OrderItem) (s' : Store),
      decrementStep oid item s = (s', none) →
      decrementStockForOrderItems (item :: rest) oid s
        = decrementStockForOrderItems rest oid s') := by
  refine ⟨fun items h => decrementStock_nonneg_aux items oid s h,
          fun item hne hqty prod hfind hlt => ?_, fun item rest s' hstep => ?_⟩
  · have hcond : ¬ (item.productId = "" ∨ item.quantity ≤ 0) := by
      push_neg
      exact ⟨hne, hqty⟩
    have hneg : prod.stock - item.quantity < 0 := sub_neg.mpr hlt
    simp [decrementStep, hcond, findProductByExternalProductId, hfind, hneg]
  · conv_lhs => rw [decrementStockForOrderItems]
    rw [hstep]

/-- C5 witness: requesting quantity 15 of P1 against stock 10 is a permanent
409 failure that leaves the store untouched. -/
theorem decrementStock_never_negative_witness :
    decrementStep "ORD-2" ⟨"P1", 15, 4, 60, none⟩
        ⟨[], [], [], [⟨100, "P1", 10, some "Cola"⟩], 0, ⟨true, true⟩⟩
      = (⟨[], [], [], [⟨100, "P1", 10, some "Cola"⟩], 0, ⟨true, true⟩⟩,
         some (permanentError
           ("Niet genoeg stock voor " ++ "P1" ++ " (order " ++ "ORD-2" ++ ")") 409)) :=
  (decrementStock_never_negative "ORD-2"
      ⟨[], [], [], [⟨100, "P1", 10, some "Cola"⟩], 0, ⟨true, true⟩⟩).2.1
    ⟨"P1", 15, 4, 60, none⟩ (by decide) (by decide)
    ⟨100, "P1", 10, some "Cola"⟩ (by decide) (by decide)

/-! ## C8 — one order line per (externalOrderId, productId) -/

/-- At most one order-line record per composite key: the Name fields of the
order-line records are pairwise distinct. -/
def linesUniquePerKey (s : Store) : Prop :=
  (s.orderLines.map (fun l => l.lname)).Nodup

/-- Mapping a record-patching function that keeps a field fixed does not
change the list of that field's values. -/
theorem map_patch_field {α β : Type} (g : α → α) (f : α → β)
    (hg : ∀ x, f (g x) = f x) (l : List α) :
    (l.map g).map f = l.map f := by
  induction l with
  | nil => rfl
  | cons a t ih => simp only [List.map_cons, hg a, ih]

/-- A key that the query does not find is not among the stored line names. -/
theorem findLineByName_none_notmem (ls : List LineRec) (key : String)
    (h : findLineByName ls key = none) : key ∉ ls.map (fun l => l.lname) := by
  intro hmem
  obtain ⟨l, hl, hlk⟩ := List.mem_map.mp hmem
  have := List.find?_eq_none.mp h l hl
  simp [hlk] at this

/-- One line-upsert step preserves the one-line-per-key invariant: the PATCH
branch leaves every Name unchanged, and the create branch adds a Name the
query just failed to find. -/
theorem upsertLineStep_nodup (osf : Nat) (oid : String) (item : OrderItem) (s : Store)
    (h : linesUniquePerKey s) : linesUniquePerKey (upsertLineStep osf oid item s).1 := by
  unfold upsertLineStep
  split
  · exact h
  · cases hf : findLineByName s.orderLines (lineKey oid item.productId) with
    | some rec =>
        unfold linesUniquePerKey at h ⊢
        dsimp only []
        rw [map_patch_field _ _ (fun x => ?_)]
        · exact h
        · by_cases hid : x.sfId = rec.sfId <;> simp [hid]
    | none =>
        unfold linesUniquePerKey at h ⊢
        dsimp only []
        rw [List.map_cons]
        exact List.Nodup.cons (findLineByName_none_notmem s.orderLines _ hf) h

/-- The whole line-upsert loop preserves the one-line-per-key invariant. -/
theorem upsertOrderLines_nodup (osf : Nat) (oid : String) (items : List OrderItem) :
    ∀ s : Store, linesUniquePerKey s → linesUniquePerKey (upsertOrderLines osf oid items s).1 := by
  induction items with
  | nil => intro s h; simpa [upsertOrderLines] using h
  | cons item rest ih =>
      intro s h
      unfold upsertOrderLines
      rcases hstep : upsertLineStep osf oid item s with ⟨s', e⟩
      have hs' : linesUniquePerKey s' := by
        have hn := upsertLineStep_nodup osf oid item s h
        rw [hstep] at hn
        exact hn
      cases e
      · exact ih s' hs'
      · exact hs'

/-- One line-upsert step adds no Name beyond the composite key of its item:
the PATCH branch keeps every record's Name, the create branch adds exactly
`lineKey oid item.productId`. -/
theorem upsertLineStep_keys (osf : Nat) (oid : String) (item : OrderItem) (s : Store) :
    ∀ l ∈ (upsertLineStep osf oid item s).1.orderLines,
      l.lname ∈ s.orderLines.map (fun x => x.lname) ∨
        l.lname = lineKey oid item.productId := by
  unfold upsertLineStep
  split
  · intro l hl
    exact Or.inl (List.mem_map_of_mem _ hl)
  · cases hf : findLineByName s.orderLines (lineKey oid item.productId) with
    | some rec =>
        dsimp only []
        intro l hl
        simp only [List.mem_map] at hl
        obtain ⟨q, hq, hpq⟩ := hl
        subst hpq
        left
        by_cases hid : q.sfId = rec.sfId <;>
          simp only [hid, if_true, if_false] <;>
          exact List.mem_map_of_mem _ hq
    | none =>
        dsimp only []
        intro l hl
        rcases List.mem_cons.mp hl with hnew | hold
        · right
          rw [hnew]
        · exact Or.inl (List.mem_map_of_mem _ hold)

/-- The whole line-upsert loop adds no Name beyond the composite keys of its
items. -/
theorem upsertOrderLines_keys (osf : Nat) (oid : String) (items : List OrderItem) :
    ∀ s : Store, ∀ l ∈ (upsertOrderLines osf oid items s).1.orderLines,
      l.lname ∈ s.orderLines.map (fun x => x.lname) ∨
        ∃ item ∈ items, l.lname = lineKey oid item.productId := by
  induction items with
  | nil =>
      intro s l hl
      exact Or.inl (List.mem_map_of_mem _ (by simpa [upsertOrderLines] using hl))
  | cons item rest ih =>
      intro s l hl
      rw [upsertOrderLines] at hl
      rcases hstep : upsertLineStep osf oid item s with ⟨s', e⟩
      rw [hstep] at hl
      have hstepkeys := upsertLineStep_keys osf oid item s
      rw [hstep] at hstepkeys
      cases e with
      | none =>
          rcases ih s' l hl with hmem | ⟨it, hit, hik⟩
          · obtain ⟨q, hq, hql⟩ := List.mem_map.mp hmem
            rcases hstepkeys q hq with hq2 | hq2
            · left
              rw [← hql]
              exact hq2
            · right
              exact ⟨item, List.mem_cons_self item rest, by rw [← hql, hq2]⟩
          · exact Or.inr ⟨it, List.mem_cons_of_mem item hit, hik⟩
      | some e =>
          rcases hstepkeys l hl with h2 | h2
          · exact Or.inl h2
          · exact Or.inr ⟨item, List.mem_cons_self item rest, h2⟩

/-- The full order-event pipeline of the order-lines consumer variant
preserves the one-line-per-key invariant: the customer upsert, order upsert
and stock decrement never touch the order lines, and the line upsert
preserves it. -/
theorem handleMessageWithLines_nodup (m : RabbitMQMessage) (s : Store)
    (h : linesUniquePerKey s) : linesUniquePerKey (handleMessageWithLines m s).1 := by
  unfold handleMessageWithLines
  split
  · cases hO : m.payload.order with
    | none => exact h
    | some o =>
        cases hC : m.payload.customer with
        | none => exact h
        | some c =>
            dsimp only []
            rcases hc : upsertCustomerAndGetId (custInputOfPayload c) s with ⟨s₁, r₁⟩
            have h₁ : linesUniquePerKey s₁ := by
              have hf := upsertCustomerAndGetId_frame (custInputOfPayload c) s
              rw [hc] at hf
              unfold linesUniquePerKey at h ⊢
              rw [show s₁.orderLines = s.orderLines from hf.2.1]
              exact h
            cases r₁ with
            | error e => exact h₁
            | ok cid =>
                dsimp only []
                rcases ho : upsertOrder ⟨o.id, o.amount, "NEW", cid⟩ s₁ with ⟨s₂, r₂⟩
                have h₂ : linesUniquePerKey s₂ := by
                  have hf := upsertOrder_frame ⟨o.id, o.amount, "NEW", cid⟩ s₁
                  rw [ho] at hf
                  unfold linesUniquePerKey at h₁ ⊢
                  rw [show s₂.orderLines = s₁.orderLines from hf.2.1]
                  exact h₁
                cases r₂ with
                | error e => exact h₂
                | ok pr =>
                    rcases pr with ⟨osf, createdNew⟩
                    dsimp only []
                    rcases hl : upsertOrderLines osf o.id o.items s₂ with ⟨s₃, r₃⟩
                    have h₃ : linesUniquePerKey s₃ := by
                      have hn := upsertOrderLines_nodup osf o.id o.items s₂ h₂
                      rw [hl] at hn
                      exact hn
                    cases r₃ with
                    | some e => exact h₃
                    | none =>
                        cases createdNew with
                        | false => exact h₃
                        | true =>
                            have hf := decrementStock_frame o.items o.id s₃
                            unfold linesUniquePerKey at h₃ ⊢
                            exact hf.2.2.1.symm ▸ h₃
  · split
    · cases hC : m.payload.customer with
      | none => exact h
      | some c =>
          dsimp only []
          rcases hc : upsertCustomerAndGetId (custInputOfPayload c) s with ⟨s₁, r₁⟩
          have h₁ : linesUniquePerKey s₁ := by
            have hf := upsertCustomerAndGetId_frame (custInputOfPayload c) s
            rw [hc] at hf
            unfold linesUniquePerKey at h ⊢
            rw [show s₁.orderLines = s.orderLines from hf.2.1]
            exact h
          cases r₁ with
          | error e => exact h₁
          | ok cid => exact h₁
    · exact h

/-- C8: in the order-lines consumer variant, (1) the line-upsert loop
preserves the at-most-one-record-per-composite-key invariant; (2) so does
the whole message pipeline (customer upsert, then order upsert, then line
upserts, then the createdNew-guarded stock decrement — only the line-upsert
stage touches order lines), hence redelivering an order any number of times
leaves at most one line record per key; (3) the loop adds no line Name
beyond the composite keys `lineKey orderExternalId productId` of its items. -/
theorem orderLines_one_per_key (osf : Nat) (oid : String) (items : List OrderItem)
    (m : RabbitMQMessage) (s : Store) :
    (linesUniquePerKey s → linesUniquePerKey (upsertOrderLines osf oid items s).1) ∧
    (linesUniquePerKey s → linesUniquePerKey (handleMessageWithLines m s).1) ∧
    (∀ l ∈ (upsertOrderLines osf oid items s).1.orderLines,
      l.lname ∈ s.orderLines.map (fun x => x.lname) ∨
        ∃ item ∈ items, l.lname = lineKey oid item.productId) :=
  ⟨upsertOrderLines_nodup osf oid items s,
   fun h => handleMessageWithLines_nodup m s h,
   upsertOrderLines_keys osf oid items s⟩

/-- C8 witness: redelivering order ORD-1 (item P1) against a store that
already holds the line ORD-1:P1 keeps the per-key uniqueness of the lines. -/
theorem orderLines_one_per_key_witness :
    linesUniquePerKey
      (handleMessageWithLines
        ⟨"m2", "CREATE_ORDER",
         ⟨some ⟨"CUST-1", "Ann", "a@b.c", none, none, none, none⟩,
          some ⟨"ORD-1", "CUST-1", 12, "EUR", [⟨"P1", 3, 4, 12, none⟩]⟩⟩,
         "t1", none⟩
        ⟨[⟨0, "CUST-1", "Ann", "a@b.c", none, none, none, none⟩],
         [⟨1, "ORD-1", 12, "NEW", 0⟩],
         [⟨2, "ORD-1:P1", 1, "P1", 3, 4⟩],
         [⟨100, "P1", 7, some "Cola"⟩], 3, ⟨true, true⟩⟩).1 :=
  (orderLines_one_per_key 0 "unused" []
      ⟨"m2", "CREATE_ORDER",
       ⟨some ⟨"CUST-1", "Ann", "a@b.c", none, none, none, none⟩,
        some ⟨"ORD-1", "CUST-1", 12, "EUR", [⟨"P1", 3, 4, 12, none⟩]⟩⟩,
       "t1", none⟩
      ⟨[⟨0, "CUST-1", "Ann", "a@b.c", none, none, none, none⟩],
       [⟨1, "ORD-1", 12, "NEW", 0⟩],
       [⟨2, "ORD-1:P1", 1, "P1", 3, 4⟩],
       [⟨100, "P1", 7, some "Cola"⟩], 3, ⟨true, true⟩⟩).2.1
    (by unfold linesUniquePerKey; decide)

/-! ## C3 — ledger short-circuit on duplicate messageId -/

/-- C3: (1) a delivery whose messageId is already in the Idempotency Ledger
(success or failed) is acknowledged immediately: no handler dispatch (the
store is untouched), no requeue (so no retry-count increment), no DLQ
publish, and no second ledger write — the ledger and store are returned
unchanged with the single effect ack; (2) consequently processing a fresh
message whose handler succeeds and then processing the same messageId again
produces exactly one ledger record and one set of store side effects: the
second pass returns everything unchanged with only an ack. -/
theorem processMessage_ledger_short_circuit (maxRetries : Nat) (handler : HandlerFn)
    (m : RabbitMQMessage) (now now₂ : String) (ledger : Ledger) (s : Store) :
    (isMessageProcessed ledger m.messageId = true →
      processMessage maxRetries handler (some m) now ledger s
        = (ledger, s, [Effect.ack])) ∧
    (isMessageProcessed ledger m.messageId = false →
      ∀ s', handler m s = (s', none) →
        processMessage maxRetries handler (some m) now ledger s
          = (⟨m.messageId, PStatus.success, now, none⟩ :: ledger, s', [Effect.ack]) ∧
        processMessage maxRetries handler (some m) now₂
            (⟨m.messageId, PStatus.success, now, none⟩ :: ledger) s'
          = (⟨m.messageId, PStatus.success, now, none⟩ :: ledger, s', [Effect.ack])) := by
  constructor
  · intro hdone
    simp [processMessage, hdone]
  · intro hnew s' hh
    have hsecond : isMessageProcessed
        (⟨m.messageId, PStatus.success, now, none⟩ :: ledger) m.messageId = true := by
      simp [isMessageProcessed]
    constructor
    · simp [processMessage, hnew, hh, markMessageProcessed]
    · simp [processMessage, hsecond]

/-- C3 witness: a ledger already holding messageId m1 short-circuits the
delivery of m1: everything unchanged, single ack. -/
theorem processMessage_ledger_short_circuit_witness :
    processMessage 3 (fun _ st => (st, none))
        (some ⟨"m1", "CREATE_CUSTOMER", ⟨none, none⟩, "t0", none⟩) "now"
        [⟨"m1", PStatus.failed, "t-1", some "boom"⟩]
        ⟨[], [], [], [], 0, ⟨true, true⟩⟩
      = ([⟨"m1", PStatus.failed, "t-1", some "boom"⟩],
         ⟨[], [], [], [], 0, ⟨true, true⟩⟩, [Effect.ack]) :=
  (processMessage_ledger_short_circuit 3 (fun _ st => (st, none))
      ⟨"m1", "CREATE_CUSTOMER", ⟨none, none⟩, "t0", none⟩ "now" "later"
      [⟨"m1", PStatus.failed, "t-1", some "boom"⟩]
      ⟨[], [], [], [], 0, ⟨true, true⟩⟩).1 (by decide)

/-! ## C4 — retry bound for always-retryably-failing handlers -/

/-- C4: with the configured maxRetries = 3, a message whose handler always
fails with a retryable error is re-published to the origin queue exactly
maxRetries - 1 = 2 times, with retryCount incremented by one per attempt
starting from 0 (the ledger untouched on those passes); on the attempt
where retryCount + 1 = maxRetries it is published exactly once to the DLQ —
carrying retryCount = maxRetries - 1 — the original delivery is
acknowledged, and a failed Idempotency Record is written. -/
theorem processMessage_retry_bound (handler : HandlerFn) (e : JsError)
    (m : RabbitMQMessage) (now : String) (ledger : Ledger) (s : Store)
    (hfail : ∀ msg st, handler msg st = (st, some e))
    (hretry : e.isHerhaalbaar.getD true = true)
    (hrc : m.retryCount = none)
    (hnew : isMessageProcessed ledger m.messageId = false) :
    processMessage configMaxRetries handler (some m) now ledger s
      = (ledger, s, [Effect.publishQueue { m with retryCount := some 1 }, Effect.ack]) ∧
    processMessage configMaxRetries handler (some { m with retryCount := some 1 }) now ledger s
      = (ledger, s, [Effect.publishQueue { m with retryCount := some 2 }, Effect.ack]) ∧
    processMessage configMaxRetries handler (some { m with retryCount := some 2 }) now ledger s
      = (⟨m.messageId, PStatus.failed, now, some e.message⟩ :: ledger, s,
         [Effect.publishDLQ (sendToDLQ { m with retryCount := some 2 } (dlqReasonOf e) now),
          Effect.ack]) ∧
    (sendToDLQ { m with retryCount := some 2 } (dlqReasonOf e) now).retryCount
      = some (configMaxRetries - 1) := by
  refine ⟨?_, ?_, ?_, rfl⟩
  · simp [processMessage, hnew, hfail, hretry, hrc, configMaxRetries]
  · simp [processMessage, hnew, hfail, hretry, configMaxRetries]
  · simp [processMessage, hnew, hfail, hretry, configMaxRetries, markMessageProcessed]

/-- C4 witness: message m1 (retryCount absent) against a handler that always
fails with retryable 503: the first pass re-publishes with retryCount = 1
and acknowledges, writing nothing to the ledger. -/
theorem processMessage_retry_bound_witness :
    processMessage configMaxRetries
        (fun _ st => (st, some (retryableError "boom" 503)))
        (some ⟨"m1", "CREATE_ORDER", ⟨none, none⟩, "t0", none⟩) "now" []
        ⟨[], [], [], [], 0, ⟨true, true⟩⟩
      = ([], ⟨[], [], [], [], 0, ⟨true, true⟩⟩,
         [Effect.publishQueue ⟨"m1", "CREATE_ORDER", ⟨none, none⟩, "t0", some 1⟩,
          Effect.ack]) :=
  (processMessage_retry_bound
      (fun _ st => (st, some (retryableError "boom" 503)))
      (retryableError "boom" 503)
      ⟨"m1", "CREATE_ORDER", ⟨none, none⟩, "t0", none⟩ "now" []
      ⟨[], [], [], [], 0, ⟨true, true⟩⟩
      (fun _ _ => rfl) rfl rfl rfl).1

/-! ## C6 — permanent failures: reject on first attempt, never DLQ -/

/-- C6: (1) an unparseable delivery is rejected (nack without requeue) with
no ledger write, no requeue and no DLQ publish; (2) a message whose handler
fails with an error flagged permanent (isHerhaalbaar = false) is — on any
attempt, whatever its retryCount — rejected without requeue, never
published to the DLQ, and a failed Idempotency Record is written; (3) an
unknown event type makes the handler fail permanently; (4) an order event
without payload.order fails permanently. -/
theorem processMessage_permanent_reject (maxRetries : Nat) (handler : HandlerFn)
    (m : RabbitMQMessage) (e : JsError) (now : String) (ledger : Ledger) (s s' : Store) :
    (processMessage maxRetries handler none now ledger s
      = (ledger, s, [Effect.nackNoRequeue])) ∧
    (isMessageProcessed ledger m.messageId = false →
      handler m s = (s', some e) →
      e.isHerhaalbaar = some false →
      processMessage maxRetries handler (some m) now ledger s
        = (⟨m.messageId, PStatus.failed, now, some e.message⟩ :: ledger, s',
           [Effect.nackNoRequeue])) ∧
    (¬ (m.event = "CREATE_ORDER" ∨ m.event = "UPDATE_ORDER") →
      ¬ (m.event = "CREATE_CUSTOMER" ∨ m.event = "UPDATE_CUSTOMER") →
      handleMessage m s
        = (s, some (permanentError ("Onbekend event type: " ++ m.event) 400))) ∧
    ((m.event = "CREATE_ORDER" ∨ m.event = "UPDATE_ORDER") →
      m.payload.order = none →
      handleMessage m s = (s, some (permanentError "payload.order ontbreekt" 400))) := by
  refine ⟨rfl, fun hnew hh hperm => ?_, fun h1 h2 => ?_, fun hev hord => ?_⟩
  · simp [processMessage, hnew, hh, hperm, markMessageProcessed]
  · simp [handleMessage, h1, h2]
  · rcases hev with h | h <;> simp [handleMessage, h, hord]

/-- C6 witness: a message with event type FOO fails permanently in the
handler, and the loop rejects it on its first attempt with a failed ledger
record, no requeue and no DLQ publish. -/
theorem processMessage_permanent_reject_witness :
    processMessage 3 handleMessage
        (some ⟨"m9", "FOO", ⟨none, none⟩, "t0", none⟩) "now" []
        ⟨[], [], [], [], 0, ⟨true, true⟩⟩
      = ([⟨"m9", PStatus.failed, "now",
           some ("Onbekend event type: " ++ "FOO")⟩],
         ⟨[], [], [], [], 0, ⟨true, true⟩⟩,
         [Effect.nackNoRequeue]) :=
  (processMessage_permanent_reject 3 handleMessage
      ⟨"m9", "FOO", ⟨none, none⟩, "t0", none⟩
      (permanentError ("Onbekend event type: " ++ "FOO") 400) "now" []
      ⟨[], [], [], [], 0, ⟨true, true⟩⟩
      ⟨[], [], [], [], 0, ⟨true, true⟩⟩).2.1
    (by decide)
    ((processMessage_permanent_reject 3 handleMessage
        ⟨"m9", "FOO", ⟨none, none⟩, "t0", none⟩
        (permanentError ("Onbekend event type: " ++ "FOO") 400) "now" []
        ⟨[], [], [], [], 0, ⟨true, true⟩⟩
        ⟨[], [], [], [], 0, ⟨true, true⟩⟩).2.2.1 (by decide) (by decide))
    rfl

/-! ## C9 — the dead-letter message is the original plus exactly two fields -/

/-- C9: the dead-letter message built by sendToDLQ carries every field of
the original message unchanged (messageId, event, payload, timestamp,
retryCount) plus exactly dlqReason (the failure reason string) and
dlqTimestamp (the ISO-8601 clock reading passed in); the DlqMessage record
has no further fields. -/
theorem sendToDLQ_preserves_message (m : RabbitMQMessage) (reason now : String) :
    (sendToDLQ m reason now).messageId = m.messageId ∧
    (sendToDLQ m reason now).event = m.event ∧
    (sendToDLQ m reason now).payload = m.payload ∧
    (sendToDLQ m reason now).timestamp = m.timestamp ∧
    (sendToDLQ m reason now).retryCount = m.retryCount ∧
    (sendToDLQ m reason now).dlqReason = reason ∧
    (sendToDLQ m reason now).dlqTimestamp = now :=
  ⟨rfl, rfl, rfl, rfl, rfl, rfl, rfl⟩

/-! ## C10 — unclassified errors are treated as retryable -/

/-- C10: (1) the plain Error thrown when SALESFORCE_INSTANCE_URL is missing
carries no isHerhaalbaar flag; (2) the loop defaults a flagless error to
retryable: while retryCount + 1 < maxRetries it re-publishes the message
with the incremented retryCount (no reject), and (3) once retries are
exhausted it dead-letters the message instead of rejecting it permanently. -/
theorem unflagged_error_treated_retryable (maxRetries : Nat) (handler : HandlerFn)
    (m : RabbitMQMessage) (e : JsError) (now : String) (ledger : Ledger) (s s' : Store)
    (hnew : isMessageProcessed ledger m.messageId = false)
    (hh : handler m s = (s', some e))
    (hflag : e.isHerhaalbaar = none) :
    (sfInstance none
      = Except.error (plainError "Missing env var: SALESFORCE_INSTANCE_URL") ∧
     (plainError "Missing env var: SALESFORCE_INSTANCE_URL").isHerhaalbaar = none) ∧
    (m.retryCount.getD 0 + 1 < maxRetries →
      processMessage maxRetries handler (some m) now ledger s
        = (ledger, s',
           [Effect.publishQueue { m with retryCount := some (m.retryCount.getD 0 + 1) },
            Effect.ack])) ∧
    (¬ m.retryCount.getD 0 + 1 < maxRetries →
      processMessage maxRetries handler (some m) now ledger s
        = (⟨m.messageId, PStatus.failed, now, some e.message⟩ :: ledger, s',
           [Effect.publishDLQ (sendToDLQ m (dlqReasonOf e) now), Effect.ack])) := by
  refine ⟨⟨rfl, rfl⟩, fun hlt => ?_, fun hge => ?_⟩
  · simp [processMessage, hnew, hh, hflag, hlt]
  · simp [processMessage, hnew, hh, hflag, hge, markMessageProcessed]

/-- C10 witness: a flagless error (as thrown by sfInstance with the env var
missing) on a first-attempt message is requeued with retryCount 1. -/
theorem unflagged_error_treated_retryable_witness :
    processMessage 3 (fun _ st => (st, some (plainError "Missing env var: SALESFORCE_INSTANCE_URL")))
        (some ⟨"m7", "CREATE_ORDER", ⟨none, none⟩, "t0", none⟩) "now" []
        ⟨[], [], [], [], 0, ⟨true, true⟩⟩
      = ([], ⟨[], [], [], [], 0, ⟨true, true⟩⟩,
         [Effect.publishQueue ⟨"m7", "CREATE_ORDER", ⟨none, none⟩, "t0", some 1⟩,
          Effect.ack]) :=
  (unflagged_error_treated_retryable 3
      (fun _ st => (st, some (plainError "Missing env var: SALESFORCE_INSTANCE_URL")))
      ⟨"m7", "CREATE_ORDER", ⟨none, none⟩, "t0", none⟩
      (plainError "Missing env var: SALESFORCE_INSTANCE_URL") "now" []
      ⟨[], [], [], [], 0, ⟨true, true⟩⟩
      ⟨[], [], [], [], 0, ⟨true, true⟩⟩
      rfl rfl rfl).2.1 (by decide)

end BCVM
